import Mathlib

/-!
Shallow embedding of `server.js` (WinMastersAI predictor proxy/cache layer)
and proofs about it.

Conventions of the embedding:
* JavaScript JSON values are modelled by `JsValue` (numbers as rationals,
  which is exact for every literal occurring in the source).
* JavaScript truthiness is modelled by `JsValue.truthy` / `jsTruthy`
  (`null`/`undefined` are the `none` case of `Option JsValue`).
* Wall-clock time is a natural number of milliseconds (`Date.now()`).
* The in-memory cache `Map` is modelled as a function from keys to optional
  entries; `Map.set` overwrites, `Map.delete` removes.
* `jwt.verify` (cryptographic verification) is an oracle parameter
  `verify : String → Option JsValue`: it returns the decoded claims payload,
  or `none` when verification throws.
* The network is an oracle `UpstreamResult`: a transport error (including an
  abort), a non-ok HTTP status, a JSON decode failure, or a decoded body.
-/

namespace WinMasters

/-- JSON values as produced by `resp.json()` and carried through the server.
Numbers are rationals (exact for all literals in the source). -/
inductive JsValue where
  | jnull
  | jbool (b : Bool)
  | jnum (q : Rat)
  | jstr (s : String)
  | jarr (xs : List JsValue)
  | jobj (fields : List (String × JsValue))

/-- JavaScript truthiness of a JSON value (`NaN` does not occur since numbers
are rationals; objects and arrays are always truthy). -/
def JsValue.truthy : JsValue → Bool
  | .jnull => false
  | .jbool b => b
  | .jnum q => q != 0
  | .jstr s => s != ""
  | .jarr _ => true
  | .jobj _ => true

/-- Truthiness of a possibly-`null`/`undefined` value. -/
def jsTruthy : Option JsValue → Bool
  | none => false
  | some v => v.truthy

/-- JavaScript property access `v.name`: a field lookup on an object,
`undefined` (`none`) on every other shape. -/
def JsValue.getField : JsValue → String → Option JsValue
  | .jobj fields, name => fields.lookup name
  | _, _ => none

/-- One record of the in-memory cache `Map`:
`key -> { ts, ttlSec, value }` (server.js line 139). `ts` is in milliseconds. -/
structure CacheEntry where
  ts : Nat
  ttlSec : Nat
  value : JsValue

/-- The cache `Map` as a partial lookup table. -/
def Cache : Type := String → Option CacheEntry

/-- The empty cache (fresh `new Map()`). -/
def emptyCache : Cache := fun _ => none

/-- `setCache(key, value, ttlSec)` (server.js lines 140-142): unconditionally
overwrite the entry with a fresh timestamp. The source gives `ttlSec` a
default of 30; the only call site passes 20 explicitly. -/
def setCache (c : Cache) (now : Nat) (key : String) (value : JsValue)
    (ttlSec : Nat) : Cache :=
  fun k => if k = key then some ⟨now, ttlSec, value⟩ else c k

/-- `getCache(key)` (server.js lines 143-151): absent keys give `null`; an
entry older than its TTL is deleted and reported `null`; otherwise the stored
value is returned. The source's test `(Date.now() - entry.ts) / 1000 >
entry.ttlSec` on integral milliseconds is expressed integrally as
`now - ts > 1000 * ttlSec` (the real-number comparison is exact here).
Returns the looked-up value together with the cache after the lazy purge. -/
def getCache (c : Cache) (now : Nat) (key : String) : Option JsValue × Cache :=
  match c key with
  | none => (none, c)
  | some e =>
      if 1000 * e.ttlSec < now - e.ts then
        (none, fun k => if k = key then none else c k)
      else
        (some e.value, c)

/-- Does the character list begin with case-insensitive `bearer` followed by
at least one whitespace character? (the guard of the regex
`/^Bearer\s+/i` in server.js line 157). -/
def bearerHead (cs : List Char) : Bool :=
  ((cs.take 6).map Char.toLower == "bearer".data) &&
    (match cs.drop 6 with
     | c :: _ => c.isWhitespace
     | [] => false)

/-- `token.replace(/^Bearer\s+/i, '')` (server.js line 157): strip one
leading case-insensitive `Bearer` scheme tag together with all the
whitespace that follows it; any other string is unchanged. -/
def stripBearer (s : String) : String :=
  if bearerHead s.data then
    String.mk ((s.data.drop 6).dropWhile Char.isWhitespace)
  else s

/-- `verifyJWT(token)` (server.js lines 154-162): a falsy (empty) token is
rejected outright; otherwise the scheme tag is stripped and the result is
passed to `jwt.verify`, modelled by the oracle `verify` (which returns
`none` when verification throws). -/
def verifyJWT (verify : String → Option JsValue) (token : String) :
    Option JsValue :=
  if token = "" then none
  else verify (stripBearer token)

/-- Outcome of one upstream round-trip, as observed by the `try`/`catch` in
`fetchPredictorMatch`: a transport error or abort (rejected `fetch`), a
response with a non-ok status, an ok response whose body fails to decode as
JSON, or a decoded body. -/
inductive UpstreamResult where
  | transportErr
  | httpErr
  | badJson
  | okJson (v : JsValue)

/-- The 5000 ms abort-timer installed around every upstream `fetch`
(server.js line 180). -/
def FETCH_TIMEOUT_MS : Nat := 5000

/-- The headers attached to the upstream request (server.js lines 174-176):
always `Accept: application/json`, plus the privileged `x-api-key` header
exactly when `forwardApiKey` is set and the configured key is a non-empty
(truthy) string. -/
def requestHeaders (forwardApiKey : Bool) (apiKey : String) :
    List (String × String) :=
  [("Accept", "application/json")] ++
    (if forwardApiKey = true ∧ apiKey ≠ "" then [("x-api-key", apiKey)] else [])

/-- The cache key template literal
`predictor:${matchId}:detail=${detail}` (server.js line 166); a JavaScript
boolean interpolates as `true`/`false`. -/
def cacheKeyOf (matchId : String) (detail : Bool) : String :=
  "predictor:" ++ matchId ++ ":detail=" ++ (if detail then "true" else "false")

/-- The single upstream request issued on a cache miss: its headers and the
abort-timer bound. (URL construction is elided: no property proved here
concerns the URL.) -/
structure UpstreamRequest where
  headers : List (String × String)
  timeoutMs : Nat

/-- What one call to `fetchPredictorMatch` produces: the value returned to
the caller (`null` on any failure), the cache afterwards, and the upstream
request that was issued (`none` when the call was served from the cache). -/
structure FetchResult where
  result : Option JsValue
  cacheAfter : Cache
  request : Option UpstreamRequest

/-- `fetchPredictorMatch(matchId, detail, forwardApiKey)` (server.js lines
165-197): a truthy cached value is returned without any request; otherwise
the request is issued with `requestHeaders` under the 5 s abort timer, a
decoded body is cached with a 20 s TTL and returned, and every failure kind
(`!resp.ok`, transport error, JSON decode error) returns `null`. -/
def fetchPredictorMatch (apiKey : String) (upstream : UpstreamResult)
    (c : Cache) (now : Nat) (matchId : String) (detail : Bool)
    (forwardApiKey : Bool) : FetchResult :=
  let cacheKey := cacheKeyOf matchId detail
  let looked := getCache c now cacheKey
  if jsTruthy looked.1 then
    ⟨looked.1, looked.2, none⟩
  else
    let req : UpstreamRequest := ⟨requestHeaders forwardApiKey apiKey, FETCH_TIMEOUT_MS⟩
    match upstream with
    | .okJson v => ⟨some v, setCache looked.2 now cacheKey v 20, some req⟩
    | _ => ⟨none, looked.2, some req⟩

/-- Timed model of the abort logic around the upstream `fetch`
(server.js lines 179-196): `arrival` is the instant (ms after the request
was issued) at which the upstream round-trip would settle, together with its
outcome, or `none` for an upstream that never responds. The
`setTimeout(() => controller.abort(), 5000)` timer fires at 5000 ms, so the
call settles at the earlier of the arrival and the timer, and an aborted
`fetch` rejects, which the `catch` observes as a transport error. -/
def timedUpstreamCall (arrival : Option (Nat × UpstreamResult)) :
    Nat × UpstreamResult :=
  match arrival with
  | none => (FETCH_TIMEOUT_MS, .transportErr)
  | some (t, r) =>
      if FETCH_TIMEOUT_MS ≤ t then (FETCH_TIMEOUT_MS, .transportErr) else (t, r)

/-- `(req.query.detail || 'false').toLowerCase() === 'true'` (server.js line
234): a missing parameter and the empty string are falsy and default to
`'false'`. `toLowerCase` is modelled per character (exact for ASCII, which
covers the comparison against `'true'`). -/
def lowerStr (s : String) : String := String.mk (s.data.map Char.toLower)

/-- Parse the `detail` query flag (server.js line 234). The parameter is
`none` when absent; array-valued query parameters (an artifact of the HTTP
framework's query parser, out of scope) are not modelled. -/
def parseDetail (q : Option String) : Bool :=
  lowerStr (match q with
    | none => "false"
    | some s => if s = "" then "false" else s) == "true"

/-- A terminal response of the single-match handler: HTTP status, JSON body,
the arguments of the `fetchPredictorMatch` call it made (`none` when the
gate answered before any fetch), and the cache afterwards. -/
structure HandlerOutcome where
  status : Nat
  body : JsValue
  fetched : Option (String × Bool × Bool)
  cacheAfter : Cache

/-- The 403 body (server.js line 246). -/
def teaserBody : JsValue :=
  .jobj [("teaser", .jstr "Full analysis available for VIPs. Start a trial for R199/month.")]

/-- The 401 body (server.js line 242). -/
def unauthorizedBody : JsValue :=
  .jobj [("error", .jstr "Missing or invalid token for detailed analysis")]

/-- The 502 body (server.js line 253). -/
def unavailableBody : JsValue :=
  .jobj [("error", .jstr "Prediction service unavailable")]

/-- The tail of the single-match handler (server.js lines 251-255): call
`fetchPredictorMatch` and answer 502 on a falsy result, 200 with the payload
otherwise. -/
def handlerFetch (apiKey : String) (upstream : UpstreamResult) (c : Cache)
    (now : Nat) (matchId : String) (detail forwardApiKey : Bool) :
    HandlerOutcome :=
  let f := fetchPredictorMatch apiKey upstream c now matchId detail forwardApiKey
  if jsTruthy f.result then
    ⟨200, f.result.getD .jnull, some (matchId, detail, forwardApiKey), f.cacheAfter⟩
  else
    ⟨502, unavailableBody, some (matchId, detail, forwardApiKey), f.cacheAfter⟩

/-- `GET /api/prediction/:matchId` (server.js lines 231-260): parse the
`detail` flag; when it is set, gate on the verified JWT (401 for a falsy
verification result, 403 with the teaser for a falsy `subscribed` claim,
otherwise forward the API key); then proxy the fetch. A missing
`Authorization` header reads as `''` (`req.headers.authorization || ''`). -/
def predictionHandler (verify : String → Option JsValue) (apiKey : String)
    (upstream : UpstreamResult) (c : Cache) (now : Nat)
    (authHeader : Option String) (matchId : String) (detailQ : Option String) :
    HandlerOutcome :=
  let detail := parseDetail detailQ
  if detail then
    let payload := verifyJWT verify (authHeader.getD "")
    if jsTruthy payload then
      if jsTruthy (payload.bind fun p => p.getField "subscribed") then
        handlerFetch apiKey upstream c now matchId detail true
      else ⟨403, teaserBody, none, c⟩
    else ⟨401, unauthorizedBody, none, c⟩
  else
    handlerFetch apiKey upstream c now matchId detail false

/-- The static sample returned by the first-registered
`GET /api/predictions` handler (server.js lines 28-37); `dateStr` stands for
`new Date().toISOString().slice(0,10)`. -/
def samplePredictionsBody (dateStr : String) : List JsValue :=
  [.jobj [("id", .jnum 1), ("match", .jstr "Switzerland vs Sweden"),
          ("date", .jstr dateStr), ("pick", .jstr "Switzerland to win"),
          ("market", .jstr "1"), ("rationale", .jstr "Home advantage"),
          ("confidence", .jnum 52)],
   .jobj [("id", .jnum 2), ("match", .jstr "Georgia vs Spain"),
          ("date", .jstr dateStr), ("pick", .jstr "Over 2.5"),
          ("market", .jstr "Over 2.5"), ("rationale", .jstr "Spain attack"),
          ("confidence", .jnum 65)],
   .jobj [("id", .jnum 3), ("match", .jstr "Belgium vs Kazakhstan"),
          ("date", .jstr dateStr), ("pick", .jstr "Belgium -1"),
          ("market", .jstr "AH -1"), ("rationale", .jstr "Strong away side"),
          ("confidence", .jnum 70)]]

/-- The fixed fallback data set of the aggregator (server.js lines 213-216);
`isoNow` stands for `new Date().toISOString()`. -/
def fallbackPredictions (isoNow : String) : List JsValue :=
  [.jobj [("id", .jnum 1), ("match", .jstr "Demo: Switzerland vs Sweden"),
          ("pick", .jstr "Switzerland to win"), ("date", .jstr isoNow),
          ("confidence", .jnum 0.52)],
   .jobj [("id", .jnum 2), ("match", .jstr "Demo: Georgia vs Spain"),
          ("pick", .jstr "Over 2.5"), ("date", .jstr isoNow),
          ("confidence", .jnum 0.65)]]

/-- The per-match results collected by the aggregator handler (server.js
lines 206-210): one `fetchPredictorMatch(id, false, false)` per configured
id, `null` entries (failures) dropped. All calls start from the same cache
state, as under `Promise.all` every lookup runs before any response
resolves; `upstream` gives each match its own round-trip outcome. -/
def aggregatorCleaned (apiKey : String) (upstream : String → UpstreamResult)
    (c : Cache) (now : Nat) (matchIds : List String) : List JsValue :=
  (matchIds.map fun mid =>
    (fetchPredictorMatch apiKey (upstream mid) c now mid false false).result).filterMap id

/-- The body of the second-registered `GET /api/predictions` handler
(server.js lines 204-223): the cleaned results, or the fixed fallback set
when every match failed. -/
def aggregatorBody (apiKey : String) (upstream : String → UpstreamResult)
    (c : Cache) (now : Nat) (isoNow : String) (matchIds : List String) :
    List JsValue :=
  let cleaned := aggregatorCleaned apiKey upstream c now matchIds
  if cleaned.length = 0 then fallbackPredictions isoNow else cleaned

/-- The five route handlers registered on the Express app, in source order. -/
inductive RouteHandler where
  | samplePredictions
  | createPayfast
  | payfastWebhook
  | aggregatedPredictions
  | singleMatchPrediction
deriving DecidableEq

/-- One registered route: method, path pattern, handler. -/
structure Route where
  method : String
  pattern : String
  handler : RouteHandler

/-- Express path matching, specialised to the patterns this app registers:
the one parameterised pattern matches a non-empty single segment after its
fixed stem; every other pattern matches by equality. -/
def routeMatches (pat path : String) : Bool :=
  if pat == "/api/prediction/:matchId" then
    let stem := "/api/prediction/".data
    (path.data.take stem.length == stem) &&
      (let rest := path.data.drop stem.length
       rest != [] && !(rest.contains '/'))
  else pat == path

/-- The routes in the order server.js registers them (lines 28, 57, 102,
204, 231). `GET /api/predictions` is registered twice. -/
def registeredRoutes : List Route :=
  [⟨"GET", "/api/predictions", .samplePredictions⟩,
   ⟨"POST", "/api/create-payfast", .createPayfast⟩,
   ⟨"POST", "/api/payfast-webhook", .payfastWebhook⟩,
   ⟨"GET", "/api/predictions", .aggregatedPredictions⟩,
   ⟨"GET", "/api/prediction/:matchId", .singleMatchPrediction⟩]

/-- Express dispatch: the first registered route matching the method and
path handles the request (none of this app's handlers calls `next()`). -/
def dispatchRoute (method path : String) : Option RouteHandler :=
  (registeredRoutes.find? fun r =>
    r.method == method && routeMatches r.pattern path).map Route.handler

/-! ### Theorems -/

/-- Claim C3: for every key, value and TTL, `setCache` followed immediately by
`getCache` returns the value; once more than `t` seconds have elapsed since
the set, `getCache` returns absent and removes the entry; in general an entry
is readable if and only if its age does not exceed its TTL, and an expired
entry is purged lazily by the lookup. -/
theorem C3_cache_ttl (c : Cache) (k : String) (v : JsValue) (t now later : Nat) :
    (getCache (setCache c now k v t) now k).1 = some v ∧
    (1000 * t < later - now →
      (getCache (setCache c now k v t) later k).1 = none ∧
      (getCache (setCache c now k v t) later k).2 k = none) ∧
    (∀ w, (getCache c now k).1 = some w ↔
      ∃ e, c k = some e ∧ e.value = w ∧ now - e.ts ≤ 1000 * e.ttlSec) ∧
    (∀ e, c k = some e → 1000 * e.ttlSec < now - e.ts →
      (getCache c now k).1 = none ∧ (getCache c now k).2 k = none) := by
  refine ⟨?_, fun hexp => ?_, fun w => ?_, fun e he hexp => ?_⟩
  · simp [getCache, setCache]
  · simp [getCache, setCache, hexp]
  · cases hck : c k with
    | none =>
        simp only [getCache, hck]
        constructor
        · intro h; cases h
        · rintro ⟨e, he, -, -⟩; cases he
    | some e =>
        simp only [getCache, hck]
        by_cases hexp : 1000 * e.ttlSec < now - e.ts
        · simp only [if_pos hexp]
          constructor
          · intro h; cases h
          · rintro ⟨e', he', -, hage⟩
            cases Option.some.inj he'
            omega
        · simp only [if_neg hexp]
          constructor
          · intro h
            exact ⟨e, rfl, Option.some.inj h, by omega⟩
          · rintro ⟨e', he', hv, -⟩
            cases Option.some.inj he'
            rw [hv]
  · simp [getCache, he, hexp]

/-- Witness for C3 at concrete inputs: a 20 s entry set at time 0 is readable
at time 0 and is absent and purged at time 20001 ms. -/
theorem C3_cache_ttl_witness :
    (getCache (setCache emptyCache 0 "k" (.jstr "v") 20) 0 "k").1 = some (.jstr "v") ∧
    (getCache (setCache emptyCache 0 "k" (.jstr "v") 20) 20001 "k").1 = none ∧
    (getCache (setCache emptyCache 0 "k" (.jstr "v") 20) 20001 "k").2 "k" = none := by
  refine ⟨(C3_cache_ttl emptyCache "k" (.jstr "v") 20 0 20001).1, ?_, ?_⟩
  · exact ((C3_cache_ttl emptyCache "k" (.jstr "v") 20 0 20001).2.1 (by decide)).1
  · exact ((C3_cache_ttl emptyCache "k" (.jstr "v") 20 0 20001).2.1 (by decide)).2

/-- Two character lists ending in the literals `true` and `false`
respectively are never equal (their second-to-last characters differ). -/
theorem suffix_true_ne_suffix_false (a b : List Char) :
    a ++ "true".data ≠ b ++ "false".data := by
  intro h
  have h2 := congrArg (fun l => (List.reverse l).take 2) h
  simp only [List.reverse_append] at h2
  rw [List.take_append_of_le_length (by decide),
    List.take_append_of_le_length (by decide)] at h2
  exact absurd h2 (by decide)

/-- Claim C9: the cache-key derivation is a deterministic injective function
of `(matchId, detail)`: two derived keys are equal exactly when both fields
agree. -/
theorem C9_cacheKey_injective (m1 : String) (d1 : Bool) (m2 : String) (d2 : Bool) :
    cacheKeyOf m1 d1 = cacheKeyOf m2 d2 ↔ m1 = m2 ∧ d1 = d2 := by
  constructor
  · intro h
    have hd := congrArg String.data h
    simp only [cacheKeyOf, String.data_append] at hd
    cases d1 <;> cases d2 <;>
      simp only [show (if (true : Bool) then "true" else "false") = "true" from rfl,
        show (if (false : Bool) then "true" else "false") = "false" from rfl] at hd
    · refine ⟨String.ext ?_, rfl⟩
      have h1 := List.append_cancel_right hd
      have h2 := List.append_cancel_right h1
      exact List.append_cancel_left h2
    · exact absurd hd.symm (suffix_true_ne_suffix_false _ _)
    · exact absurd hd (suffix_true_ne_suffix_false _ _)
    · refine ⟨String.ext ?_, rfl⟩
      have h1 := List.append_cancel_right hd
      have h2 := List.append_cancel_right h1
      exact List.append_cancel_left h2
  · rintro ⟨rfl, rfl⟩
    rfl

/-- Witness for C9 at concrete inputs: equal fields give the equal key, and
the keys for `("A", false)`, `("A", true)` and `("B", false)` are concretely
the three distinct strings the derivation prescribes. -/
theorem C9_cacheKey_injective_witness :
    cacheKeyOf "A" false = cacheKeyOf "A" false ∧
    cacheKeyOf "A" false = "predictor:A:detail=false" ∧
    cacheKeyOf "A" true = "predictor:A:detail=true" ∧
    cacheKeyOf "B" false = "predictor:B:detail=false" :=
  ⟨(C9_cacheKey_injective "A" false "A" false).mpr ⟨rfl, rfl⟩, by decide, by decide, by decide⟩

/-- Claim C5: on a call that actually consults the upstream (no truthy cache
hit), a transport error, a non-success HTTP status and a JSON-decode error
all produce the identical failure result `null`; `fetchPredictorMatch` is a
total function into `Option`, so no such error reaches the caller as a
distinct error type or exception. -/
theorem C5_uniform_failure (apiKey : String) (c : Cache) (now : Nat)
    (matchId : String) (detail forwardApiKey : Bool)
    (hmiss : jsTruthy (getCache c now (cacheKeyOf matchId detail)).1 = false) :
    (fetchPredictorMatch apiKey .transportErr c now matchId detail forwardApiKey).result = none ∧
    (fetchPredictorMatch apiKey .httpErr c now matchId detail forwardApiKey).result = none ∧
    (fetchPredictorMatch apiKey .badJson c now matchId detail forwardApiKey).result = none := by
  refine ⟨?_, ?_, ?_⟩ <;> simp [fetchPredictorMatch, hmiss]

/-- Witness for C5 on the empty cache. -/
theorem C5_uniform_failure_witness :
    (fetchPredictorMatch "" .transportErr emptyCache 0 "m1" false false).result = none ∧
    (fetchPredictorMatch "" .httpErr emptyCache 0 "m1" false false).result = none ∧
    (fetchPredictorMatch "" .badJson emptyCache 0 "m1" false false).result = none :=
  C5_uniform_failure "" emptyCache 0 "m1" false false rfl

/-- Claim C6: every upstream request issued by `fetchPredictorMatch` carries
the `Accept: application/json` header, and carries the privileged
`x-api-key` header exactly when `forwardApiKey` is set and the configured
key is non-empty. -/
theorem C6_request_headers (apiKey : String) (upstream : UpstreamResult)
    (c : Cache) (now : Nat) (matchId : String) (detail forwardApiKey : Bool)
    (req : UpstreamRequest)
    (hreq : (fetchPredictorMatch apiKey upstream c now matchId detail forwardApiKey).request = some req) :
    req.headers = requestHeaders forwardApiKey apiKey ∧
    ("Accept", "application/json") ∈ req.headers ∧
    ((∃ k, ("x-api-key", k) ∈ req.headers) ↔ (forwardApiKey = true ∧ apiKey ≠ "")) := by
  have hhd : req.headers = requestHeaders forwardApiKey apiKey := by
    by_cases h : jsTruthy (getCache c now (cacheKeyOf matchId detail)).1
    · simp [fetchPredictorMatch, h] at hreq
    · cases upstream <;>
        · simp [fetchPredictorMatch, h] at hreq
          rw [← hreq]
  refine ⟨hhd, ?_, ?_⟩
  · rw [hhd]; simp [requestHeaders]
  · rw [hhd]
    by_cases hc : forwardApiKey = true ∧ apiKey ≠ ""
    · simp only [requestHeaders, if_pos hc]
      refine ⟨fun _ => hc, fun _ => ⟨apiKey, by simp⟩⟩
    · simp only [requestHeaders, if_neg hc]
      constructor
      · rintro ⟨k, hk⟩
        simp at hk
      · intro h
        exact absurd h hc

/-- Witness for C6: a concrete failed fetch with a non-empty configured key
and `forwardApiKey` set carries both headers. -/
theorem C6_request_headers_witness :
    ("Accept", "application/json") ∈ requestHeaders true "secret" ∧
    ((∃ k, ("x-api-key", k) ∈ requestHeaders true "secret") ↔
      (true = true ∧ ("secret" : String) ≠ "")) :=
  (C6_request_headers "secret" .httpErr emptyCache 0 "m1" false true
    ⟨requestHeaders true "secret", FETCH_TIMEOUT_MS⟩ rfl).2

/-- A cache holding one entry for `("m1", false)` written at time 0 with a
20 s TTL: expired at any time past 20000 ms. -/
def c7cache : Cache :=
  fun k => if k = cacheKeyOf "m1" false then some ⟨0, 20, .jstr "x"⟩ else none

/-- Counterexample to claim C7 as stated: at time 30000 ms a failed fetch for
`("m1", false)` does not leave the cache unchanged — the initial lookup
purges the expired entry, so the key maps to an entry before the call and to
nothing after it. -/
theorem C7_counterexample :
    (fetchPredictorMatch "" .httpErr c7cache 30000 "m1" false false).result = none ∧
    c7cache (cacheKeyOf "m1" false) = some ⟨0, 20, .jstr "x"⟩ ∧
    (fetchPredictorMatch "" .httpErr c7cache 30000 "m1" false false).cacheAfter
      (cacheKeyOf "m1" false) = none := by
  refine ⟨rfl, ?_, ?_⟩ <;> simp [fetchPredictorMatch, getCache, c7cache, jsTruthy]

/-- Claim C7 (amended): a cache-missing successful fetch writes the payload
under the `(matchId, detail)` key with a 20-second TTL and timestamp `now`;
a failed fetch creates no entry — every key is unchanged except that an
already-expired entry at the looked-up key may be purged by the initial
lookup. -/
theorem C7_cache_write_policy (apiKey : String) (c : Cache) (now : Nat)
    (matchId : String) (detail forwardApiKey : Bool) :
    (∀ v, jsTruthy (getCache c now (cacheKeyOf matchId detail)).1 = false →
      (fetchPredictorMatch apiKey (.okJson v) c now matchId detail forwardApiKey).cacheAfter
        (cacheKeyOf matchId detail) = some ⟨now, 20, v⟩) ∧
    (∀ u, (u = UpstreamResult.transportErr ∨ u = UpstreamResult.httpErr ∨ u = UpstreamResult.badJson) →
      ∀ k, (fetchPredictorMatch apiKey u c now matchId detail forwardApiKey).cacheAfter k = c k ∨
        (k = cacheKeyOf matchId detail ∧
          (fetchPredictorMatch apiKey u c now matchId detail forwardApiKey).cacheAfter k = none ∧
          ∃ e, c k = some e ∧ 1000 * e.ttlSec < now - e.ts)) := by
  constructor
  · intro v hmiss
    simp [fetchPredictorMatch, hmiss, setCache]
  · intro u hu k
    have hafter : ∀ ur : UpstreamResult,
        (ur = UpstreamResult.transportErr ∨ ur = UpstreamResult.httpErr ∨ ur = UpstreamResult.badJson) →
        (fetchPredictorMatch apiKey ur c now matchId detail forwardApiKey).cacheAfter =
          (getCache c now (cacheKeyOf matchId detail)).2 := by
      intro ur hur
      by_cases h : jsTruthy (getCache c now (cacheKeyOf matchId detail)).1
      · simp [fetchPredictorMatch, h]
      · rcases hur with rfl | rfl | rfl <;> simp [fetchPredictorMatch, h]
    rw [hafter u hu]
    rcases hck : c (cacheKeyOf matchId detail) with - | e
    · left; simp [getCache, hck]
    · by_cases hexp : 1000 * e.ttlSec < now - e.ts
      · by_cases hkk : k = cacheKeyOf matchId detail
        · subst hkk
          right
          exact ⟨rfl, by simp [getCache, hck, hexp], e, hck, hexp⟩
        · left
          simp [getCache, hck, hexp, hkk]
      · left; simp [getCache, hck, hexp]

/-- Witness for C7 (amended) at concrete inputs: a successful fetch writes
the entry with a 20 s TTL, and a failed fetch on the empty cache leaves a
key unchanged. -/
theorem C7_cache_write_policy_witness :
    (fetchPredictorMatch "" (.okJson (.jstr "p")) emptyCache 5 "m1" true false).cacheAfter
      (cacheKeyOf "m1" true) = some ⟨5, 20, .jstr "p"⟩ ∧
    ((fetchPredictorMatch "" .httpErr emptyCache 5 "m1" true false).cacheAfter "other" =
        emptyCache "other" ∨
      ("other" = cacheKeyOf "m1" true ∧
        (fetchPredictorMatch "" .httpErr emptyCache 5 "m1" true false).cacheAfter "other" = none ∧
        ∃ e, emptyCache "other" = some e ∧ 1000 * e.ttlSec < 5 - e.ts)) :=
  ⟨(C7_cache_write_policy "" emptyCache 5 "m1" true false).1 (.jstr "p") rfl,
   (C7_cache_write_policy "" emptyCache 5 "m1" true false).2 .httpErr (Or.inr (Or.inl rfl)) "other"⟩

/-- Claim C8: the abort timer bounds every upstream round-trip by 5000 ms —
the call settles no later than the timeout, and an upstream that never
responds is observed as a transport error, which a cache-missing
`fetchPredictorMatch` reports as failure (`null`); the call never blocks
indefinitely. -/
theorem C8_timeout_bound (arrival : Option (Nat × UpstreamResult))
    (apiKey : String) (c : Cache) (now : Nat) (matchId : String)
    (detail forwardApiKey : Bool) :
    (timedUpstreamCall arrival).1 ≤ FETCH_TIMEOUT_MS ∧
    (arrival = none →
      (timedUpstreamCall arrival).2 = .transportErr ∧
      (jsTruthy (getCache c now (cacheKeyOf matchId detail)).1 = false →
        (fetchPredictorMatch apiKey (timedUpstreamCall arrival).2 c now matchId
          detail forwardApiKey).result = none)) := by
  constructor
  · rcases arrival with - | ⟨t, r⟩
    · exact le_refl _
    · simp only [timedUpstreamCall]
      by_cases h : FETCH_TIMEOUT_MS ≤ t
      · simp [h]
      · simp [h]; omega
  · rintro rfl
    refine ⟨rfl, fun hmiss => ?_⟩
    simp [timedUpstreamCall, fetchPredictorMatch, hmiss]

/-- Witness for C8: an upstream that never responds settles at exactly the
5000 ms timeout as a transport error and the call reports failure. -/
theorem C8_timeout_bound_witness :
    (timedUpstreamCall none).1 ≤ FETCH_TIMEOUT_MS ∧
    (timedUpstreamCall none).2 = .transportErr ∧
    (fetchPredictorMatch "" (timedUpstreamCall none).2 emptyCache 0 "m1" false false).result = none := by
  refine ⟨(C8_timeout_bound none "" emptyCache 0 "m1" false false).1, ?_, ?_⟩
  · exact ((C8_timeout_bound none "" emptyCache 0 "m1" false false).2 rfl).1
  · exact ((C8_timeout_bound none "" emptyCache 0 "m1" false false).2 rfl).2 rfl

/-- The `fetched` record of `handlerFetch` is the argument triple it passed
to `fetchPredictorMatch`, on both the 200 and the 502 path. -/
theorem handlerFetch_fetched (apiKey : String) (upstream : UpstreamResult)
    (c : Cache) (now : Nat) (matchId : String) (detail forwardApiKey : Bool) :
    (handlerFetch apiKey upstream c now matchId detail forwardApiKey).fetched =
      some (matchId, detail, forwardApiKey) := by
  unfold handlerFetch
  by_cases h : jsTruthy (fetchPredictorMatch apiKey upstream c now matchId detail forwardApiKey).result <;>
    simp [h]

/-- Stripping the scheme tag: any case variant of `Bearer` followed by a
space is removed in front of a credential that does not itself begin with
whitespace. -/
theorem stripBearer_scheme (b cred : String) (hb : lowerStr b = "bearer")
    (hcred : cred.data.dropWhile Char.isWhitespace = cred.data) :
    stripBearer (b ++ " " ++ cred) = cred := by
  have hbdata : b.data.map Char.toLower = "bearer".data := congrArg String.data hb
  have hlen : b.data.length = 6 := by
    have := congrArg List.length hbdata
    simpa using this
  have hdata : (b ++ " " ++ cred).data = b.data ++ (' ' :: cred.data) := by
    simp [String.data_append]
  have hbh : bearerHead (b.data ++ (' ' :: cred.data)) = true := by
    unfold bearerHead
    rw [← hlen, List.take_left, List.drop_left, hbdata]
    simp
  unfold stripBearer
  rw [hdata, if_pos hbh, ← hlen, List.drop_left, List.dropWhile_cons]
  simp only [Char.isWhitespace, show (' '.isWhitespace) = true from rfl, if_pos rfl]
  rw [hcred]
  exact String.ext rfl

/-- A scheme-tagged credential is nonempty (it contains at least the space),
hence it passes the handler's empty-token check. -/
theorem schemeTagged_ne_empty (b cred : String) :
    b ++ " " ++ cred ≠ "" := by
  intro h
  have hd := congrArg String.data h
  simp [String.data_append] at hd

/-- Claim C1: on a detail request, a missing or invalid credential yields a
401 terminal response with no fetch attempted; a valid credential with a
falsy `subscribed` claim yields the 403 teaser terminal response with no
fetch; a valid subscribed credential proceeds to the fetch with the
privileged flag and a successful upstream body is returned as 200 with the
payload; and the credential reaches `jwt.verify` identically with or without
a case-insensitive `Bearer ` scheme tag. -/
theorem C1_detail_credential_gating (verify : String → Option JsValue)
    (apiKey : String) (c : Cache) (now : Nat) (authHeader : Option String)
    (matchId : String) (detailQ : Option String)
    (hdet : parseDetail detailQ = true) :
    (∀ upstream, jsTruthy (verifyJWT verify (authHeader.getD "")) = false →
      predictionHandler verify apiKey upstream c now authHeader matchId detailQ =
        ⟨401, unauthorizedBody, none, c⟩) ∧
    (∀ upstream, jsTruthy (verifyJWT verify (authHeader.getD "")) = true →
      jsTruthy ((verifyJWT verify (authHeader.getD "")).bind
        (fun p => p.getField "subscribed")) = false →
      predictionHandler verify apiKey upstream c now authHeader matchId detailQ =
        ⟨403, teaserBody, none, c⟩) ∧
    (∀ v, jsTruthy (verifyJWT verify (authHeader.getD "")) = true →
      jsTruthy ((verifyJWT verify (authHeader.getD "")).bind
        (fun p => p.getField "subscribed")) = true →
      jsTruthy (getCache c now (cacheKeyOf matchId true)).1 = false →
      v.truthy = true →
      (predictionHandler verify apiKey (.okJson v) c now authHeader matchId detailQ).status = 200 ∧
      (predictionHandler verify apiKey (.okJson v) c now authHeader matchId detailQ).body = v ∧
      (predictionHandler verify apiKey (.okJson v) c now authHeader matchId detailQ).fetched =
        some (matchId, true, true)) ∧
    (∀ b cred, lowerStr b = "bearer" →
      cred.data.dropWhile Char.isWhitespace = cred.data →
      verifyJWT verify (b ++ " " ++ cred) = verify cred) ∧
    (∀ cred, cred ≠ "" → bearerHead cred.data = false →
      verifyJWT verify cred = verify cred) := by
  refine ⟨?_, ?_, ?_, ?_, ?_⟩
  · intro upstream hbad
    simp [predictionHandler, hdet, hbad]
  · intro upstream hok hsub
    simp [predictionHandler, hdet, hok, hsub]
  · intro v hok hsub hmiss htr
    have hh : predictionHandler verify apiKey (.okJson v) c now authHeader matchId detailQ =
        handlerFetch apiKey (.okJson v) c now matchId true true := by
      simp [predictionHandler, hdet, hok, hsub]
    rw [hh]
    have hres : (fetchPredictorMatch apiKey (.okJson v) c now matchId true true).result = some v := by
      simp [fetchPredictorMatch, hmiss]
    refine ⟨?_, ?_, ?_⟩ <;> simp [handlerFetch, hres, jsTruthy, htr]
  · intro b cred hb hcred
    rw [verifyJWT, if_neg (schemeTagged_ne_empty b cred), stripBearer_scheme b cred hb hcred]
  · intro cred hne hby
    rw [verifyJWT, if_neg hne, stripBearer, if_neg (by rw [hby]; exact Bool.false_ne_true)]

/-- Witness for C1: the 401, 403 and 200 terminals at concrete inputs, and a
concrete upper-case scheme tag being stripped before verification. -/
theorem C1_detail_credential_gating_witness :
    predictionHandler (fun _ => none) "" .httpErr emptyCache 0 none "m1" (some "true") =
      ⟨401, unauthorizedBody, none, emptyCache⟩ ∧
    predictionHandler (fun _ => some (.jobj [("subscribed", .jbool false)])) ""
        .httpErr emptyCache 0 (some "Bearer x") "m1" (some "true") =
      ⟨403, teaserBody, none, emptyCache⟩ ∧
    (predictionHandler (fun _ => some (.jobj [("subscribed", .jbool true)])) "key"
        (.okJson (.jstr "payload")) emptyCache 0 (some "Bearer x") "m1" (some "true")).status = 200 ∧
    (predictionHandler (fun _ => some (.jobj [("subscribed", .jbool true)])) "key"
        (.okJson (.jstr "payload")) emptyCache 0 (some "Bearer x") "m1" (some "true")).fetched =
      some ("m1", true, true) ∧
    verifyJWT (fun t => some (.jstr t)) ("BEARER" ++ " " ++ "tok") = some (.jstr "tok") := by
  refine ⟨?_, ?_, ?_, ?_, ?_⟩
  · exact (C1_detail_credential_gating (fun _ => none) "" emptyCache 0 none "m1"
      (some "true") (by decide)).1 .httpErr (by decide)
  · exact (C1_detail_credential_gating (fun _ => some (.jobj [("subscribed", .jbool false)]))
      "" emptyCache 0 (some "Bearer x") "m1" (some "true") (by decide)).2.1 .httpErr
      (by decide) (by decide)
  · exact ((C1_detail_credential_gating (fun _ => some (.jobj [("subscribed", .jbool true)]))
      "key" emptyCache 0 (some "Bearer x") "m1" (some "true") (by decide)).2.2.1
      (.jstr "payload") (by decide) (by decide) rfl (by decide)).1
  · exact ((C1_detail_credential_gating (fun _ => some (.jobj [("subscribed", .jbool true)]))
      "key" emptyCache 0 (some "Bearer x") "m1" (some "true") (by decide)).2.2.1
      (.jstr "payload") (by decide) (by decide) rfl (by decide)).2.2
  · exact (C1_detail_credential_gating (fun t => some (.jstr t)) "" emptyCache 0 none "m1"
      (some "true") (by decide)).2.2.2.1 "BEARER" "tok" (by decide) (by decide)

/-- Claim C10: the `detail` flag is set exactly when the query parameter
lower-cases to `true`; a missing parameter or any other value yields
`detail = false`, in which case the handler's answer is independent of the
credential and of the `Authorization` header and the request proceeds to the
fetch with no privileged flag. -/
theorem C10_detail_parsing :
    (∀ q, parseDetail q = true ↔ ∃ s, q = some s ∧ lowerStr s = "true") ∧
    parseDetail none = false ∧
    parseDetail (some "1") = false ∧
    parseDetail (some "yes") = false ∧
    (∀ (verify verify2 : String → Option JsValue) (apiKey : String)
        (upstream : UpstreamResult) (c : Cache) (now : Nat)
        (a1 a2 : Option String) (matchId : String) (q : Option String),
      parseDetail q = false →
      predictionHandler verify apiKey upstream c now a1 matchId q =
        predictionHandler verify2 apiKey upstream c now a2 matchId q ∧
      (predictionHandler verify apiKey upstream c now a1 matchId q).fetched =
        some (matchId, false, false)) := by
  refine ⟨?_, by decide, by decide, by decide, ?_⟩
  · intro q
    cases q with
    | none =>
        constructor
        · intro h; exact absurd h (by decide)
        · rintro ⟨s, hs, -⟩; cases hs
    | some s =>
        by_cases he : s = ""
        · subst he
          constructor
          · intro h; exact absurd h (by decide)
          · rintro ⟨s', hs', hl⟩
            injection hs' with hs'
            subst hs'
            exact absurd hl (by decide)
        · constructor
          · intro h
            refine ⟨s, rfl, ?_⟩
            simpa [parseDetail, he] using h
          · rintro ⟨s', hs', hl⟩
            injection hs' with hs'
            subst hs'
            simp [parseDetail, he, hl]
  · intro verify verify2 apiKey upstream c now a1 a2 matchId q hq
    constructor
    · simp [predictionHandler, hq]
    · simp only [predictionHandler, hq]
      simpa using handlerFetch_fetched apiKey upstream c now matchId false false

/-- Witness for C10: with `detail=1` the handler behaves identically under
two different verifiers and headers, and it proceeds to the unprivileged
fetch. -/
theorem C10_detail_parsing_witness :
    predictionHandler (fun _ => none) "" .httpErr emptyCache 0 (some "Bearer t") "m1" (some "1") =
      predictionHandler (fun _ => some (.jobj [("subscribed", .jbool true)])) ""
        .httpErr emptyCache 0 none "m1" (some "1") ∧
    (predictionHandler (fun _ => none) "" .httpErr emptyCache 0 (some "Bearer t") "m1"
      (some "1")).fetched = some ("m1", false, false) :=
  C10_detail_parsing.2.2.2.2 (fun _ => none)
    (fun _ => some (.jobj [("subscribed", .jbool true)])) "" .httpErr emptyCache 0
    (some "Bearer t") none "m1" (some "1") (by decide)

/-- Dropping the `null` entries of a list and counting them accounts for
every element. -/
theorem filterMap_id_length (l : List (Option JsValue)) :
    (l.filterMap id).length + l.countP (fun o => o.isNone) = l.length := by
  induction l with
  | nil => rfl
  | cons hd tl ih =>
      cases hd <;> simp [List.filterMap_cons, List.countP_cons] <;> omega

/-- Claim C2 against the code: `GET /api/predictions` is dispatched to the
first-registered static-sample handler, not to the aggregator — the sample
has 3 entries whatever the upstream does. The aggregator handler itself does
satisfy the claimed arithmetic: over any configured ids, the cleaned results
and the failed fetches partition the batch (no failure aborts it), and an
all-failed batch yields the fixed non-empty fallback set. -/
theorem C2_aggregator_shadowed :
    dispatchRoute "GET" "/api/predictions" = some RouteHandler.samplePredictions ∧
    RouteHandler.samplePredictions ≠ RouteHandler.aggregatedPredictions ∧
    (∀ dateStr, (samplePredictionsBody dateStr).length = 3) ∧
    (∀ (apiKey : String) (upstream : String → UpstreamResult) (c : Cache)
        (now : Nat) (matchIds : List String),
      (aggregatorCleaned apiKey upstream c now matchIds).length +
        matchIds.countP (fun mid =>
          (fetchPredictorMatch apiKey (upstream mid) c now mid false false).result.isNone) =
        matchIds.length) ∧
    (∀ (apiKey : String) (upstream : String → UpstreamResult) (c : Cache)
        (now : Nat) (isoNow : String) (matchIds : List String),
      aggregatorCleaned apiKey upstream c now matchIds = [] →
      aggregatorBody apiKey upstream c now isoNow matchIds = fallbackPredictions isoNow ∧
      fallbackPredictions isoNow ≠ []) := by
  refine ⟨by decide, by decide, fun dateStr => rfl, ?_, ?_⟩
  · intro apiKey upstream c now matchIds
    have h := filterMap_id_length (matchIds.map
      (fun mid => (fetchPredictorMatch apiKey (upstream mid) c now mid false false).result))
    rw [List.countP_map, List.length_map] at h
    exact h
  · intro apiKey upstream c now isoNow matchIds hempty
    refine ⟨?_, by simp [fallbackPredictions]⟩
    simp [aggregatorBody, hempty]

/-- Witness for C2: with two configured matches both failing upstream, the
aggregator handler returns the fixed fallback set, which is non-empty. -/
theorem C2_aggregator_shadowed_witness :
    aggregatorBody "" (fun _ => .transportErr) emptyCache 0 "iso" ["m1", "m2"] =
      fallbackPredictions "iso" ∧
    fallbackPredictions "iso" ≠ [] :=
  C2_aggregator_shadowed.2.2.2.2 "" (fun _ => .transportErr) emptyCache 0 "iso"
    ["m1", "m2"] rfl

/-- The upstream of end-to-end scenario 1: `m1` answers `{pick:"Home"}`,
every other match times out. -/
def scenarioUpstream : String → UpstreamResult :=
  fun mid => if mid = "m1" then .okJson (.jobj [("pick", .jstr "Home")]) else .transportErr

/-- Claim C4 against the code: in the scenario (`["m1","m2"]` configured,
`m1` answering `{pick:"Home"}`, `m2` timing out) the aggregator handler
would return exactly `[{pick:"Home"}]` — but `GET /api/predictions` is
dispatched to the first-registered static handler, whose body always has 3
entries rather than this 1. -/
theorem C4_scenario_shadowed :
    aggregatorBody "" scenarioUpstream emptyCache 0 "iso" ["m1", "m2"] =
      [.jobj [("pick", .jstr "Home")]] ∧
    dispatchRoute "GET" "/api/predictions" = some RouteHandler.samplePredictions ∧
    (∀ dateStr, (samplePredictionsBody dateStr).length = 3) ∧
    ([JsValue.jobj [("pick", .jstr "Home")]] : List JsValue).length = 1 := by
  refine ⟨?_, by decide, fun dateStr => rfl, rfl⟩
  simp [aggregatorBody, aggregatorCleaned, scenarioUpstream, fetchPredictorMatch,
    getCache, emptyCache, jsTruthy]

end WinMasters
